import Mathlib

/-!
Shallow embedding of the Stellar example CLI scripts
(`research/stellar/examples/python`): `transfer.py`, `activate-account.py`,
`fund-account.py`, `check-account.py`, `create-keypair.py` and
`create-trustline.py`.  Each script is modelled as a function from the
externally supplied results of its network/SDK calls (a "world") and its
command-line inputs to a run result: the list of outbound network calls it
made, the lines it printed, the transaction it built (if any), and its
termination outcome.
-/

namespace Stellar

/-- A Python exception kind, as coarse as the scripts distinguish them:
`BadRequestError` from the Stellar SDK, `requests.exceptions.HTTPError`,
and every other exception (connection errors, malformed-secret errors, ...),
identified by its class name. -/
inductive Exc where
  | badRequest (msg : String)
  | httpError (status : Nat)
  | other (name : String)
deriving DecidableEq, Repr

/-- The result of an external (SDK or network) call: a value, or a raised
exception. -/
inductive CallResult (α : Type) where
  | ok (a : α)
  | raise (e : Exc)
deriving DecidableEq, Repr

/-- A Python value returned from a click handler.  The transfer handler
either falls off the end (returning `None`) or executes
`return Exception('Wrong asset format')`, returning an exception OBJECT
as an ordinary value. -/
inductive PyValue where
  | pyNone
  | excValue (msg : String)
deriving DecidableEq, Repr

/-- How a script run terminates: the handler returned a value (click
ignores it and the process exits 0), an exception propagated uncaught
(process exits 1), click reported a missing required option (usage error,
exit 2), or the script called `sys.exit code`. -/
inductive Outcome where
  | returned (v : PyValue)
  | raised (e : Exc)
  | usageError
  | exited (code : Nat)
deriving DecidableEq, Repr

/-- Process exit status for each outcome. -/
def exitCode : Outcome → Nat
  | .returned _ => 0
  | .raised _ => 1
  | .usageError => 2
  | .exited c => c

/-- A keypair as the scripts see it: `Keypair.from_secret` yields an object
exposing `public_key` (and the secret it was built from). -/
structure Keypair where
  secret : String
  publicKey : String
deriving DecidableEq, Repr

/-- The account object returned by `server.load_account`. -/
structure Account where
  accountId : String
  sequence : Nat
deriving DecidableEq, Repr

/-- A Horizon submit-transaction response; the scripts read `response["hash"]`
and print the whole response body. -/
structure HorizonResponse where
  hash : String
  body : String
deriving DecidableEq, Repr

/-- A single operation appended by a `TransactionBuilder` in these scripts. -/
inductive Operation where
  | createAccount (destination : String) (startingBalance : String)
  | payment (destination : String) (amount : String) (assetCode : String)
      (assetIssuer : Option String)
  | changeTrust (assetCode : String) (assetIssuer : String)
      (limit : Option String)
deriving DecidableEq, Repr

/-- The network passphrase constant `Network.TESTNET_NETWORK_PASSPHRASE`. -/
def TESTNET_NETWORK_PASSPHRASE : String := "Test SDF Network ; September 2015"

/-- A built transaction: passphrase, base fee, operations, optional timeout
set by `.set_timeout`, and the public keys it was signed with. -/
structure Transaction where
  networkPassphrase : String
  baseFee : Nat
  operations : List Operation
  timeout : Option Nat
  signers : List String
deriving DecidableEq, Repr

/-- An outbound network call made by a script. -/
inductive NetCall where
  | loadAccount (accountId : String)
  | fetchBaseFee
  | submitTx (tx : Transaction)
  | friendbotGet (address : String)
  | addressGet (address : String)
deriving DecidableEq, Repr

/-- A line printed to standard output, tagged by which `print` produced it. -/
inductive OutputLine where
  | xdrOf (tx : Transaction)
  | txHash (h : String)
  | responseBody (s : String)
  | errMsg (s : String)
  | fundedMsg (address : String)
  | jsonOf (s : String)
  | balancesLine (s : String)
  | sequenceLine (n : Nat)
  | flagsLine (s : String)
  | signersLine (s : String)
  | dataLine (s : String)
  | keyLine (s : String)
  | addressLine (s : String)
deriving DecidableEq, Repr

/-- The observable result of one script run. -/
structure RunResult where
  calls : List NetCall
  output : List OutputLine
  builtTx : Option Transaction
  outcome : Outcome
deriving DecidableEq, Repr

/-! ## transfer.py -/

/-- Python's `str.split` with a one-character separator, over the character
list: `''.split(':') == ['']`, `':'.split(':') == ['', '']`,
`'a:b:c'.split(':') == ['a', 'b', 'c']`. -/
def pySplit (sep : Char) : List Char → List (List Char)
  | [] => [[]]
  | c :: rest =>
    let r := pySplit sep rest
    if c = sep then [] :: r
    else
      match r with
      | [] => [[c]]
      | w :: ws => (c :: w) :: ws

/-- `asset.split(':')` from `transfer.py` line 25. -/
def splitColon (s : String) : List String :=
  (pySplit ':' s.toList).map List.asString

/-- The external calls `transfer.py` can make, with their outcomes supplied
by the environment: `Keypair.from_secret`, `server.load_account`,
`server.fetch_base_fee`, `server.submit_transaction`. -/
structure TransferWorld where
  fromSecret : CallResult Keypair
  loadAcct : CallResult Account
  baseFee : CallResult Nat
  submit : CallResult HorizonResponse
deriving Repr

/-- Handler of `transfer.py` (lines 12-51): derive the keypair from the
secret, load the source account, fetch the base fee, default an empty
`--asset` to the native `XLM` with no issuer or else split it on `:`
(returning — not raising — `Exception('Wrong asset format')` unless the
split has exactly two parts), build and sign a payment transaction with a
30-second timeout, print its XDR, submit it, and print the hash and
response, catching only `BadRequestError` from the submission. -/
def transfer (w : TransferWorld) (sourcekey destinationaddress : String)
    (amount : Int) (asset : String) : RunResult :=
  match w.fromSecret with
  | .raise e => ⟨[], [], none, .raised e⟩
  | .ok source_keypair =>
    let source_public_key := source_keypair.publicKey
    match w.loadAcct with
    | .raise e => ⟨[.loadAccount source_public_key], [], none, .raised e⟩
    | .ok _source_account =>
      match w.baseFee with
      | .raise e =>
          ⟨[.loadAccount source_public_key, .fetchBaseFee], [], none, .raised e⟩
      | .ok base_fee =>
        let preCalls := [NetCall.loadAccount source_public_key, NetCall.fetchBaseFee]
        let parsed : Except PyValue (String × Option String) :=
          if asset = "" then
            .ok ("XLM", none)
          else
            match splitColon asset with
            | [a, i] => .ok (a, some i)
            | _ => .error (.excValue "Wrong asset format")
        match parsed with
        | .error v => ⟨preCalls, [], none, .returned v⟩
        | .ok (assetCode, issuer) =>
          let transaction : Transaction :=
            ⟨TESTNET_NETWORK_PASSPHRASE, base_fee,
              [.payment destinationaddress (toString amount) assetCode issuer],
              some 30, [source_public_key]⟩
          let calls := preCalls ++ [NetCall.submitTx transaction]
          match w.submit with
          | .ok response =>
              ⟨calls,
               [.xdrOf transaction, .txHash response.hash, .responseBody response.body],
               some transaction, .returned .pyNone⟩
          | .raise (.badRequest m) =>
              ⟨calls, [.xdrOf transaction, .errMsg m], some transaction,
               .returned .pyNone⟩
          | .raise e =>
              ⟨calls, [.xdrOf transaction], some transaction, .raised e⟩

/-- The flag set of `transfer.py`: `--sourcekey`, `--destinationaddress`
and `--amount` (type int) are required; `--asset` has default `''`.
`none` means the flag was not supplied. -/
structure TransferFlags where
  sourcekey : Option String
  destinationaddress : Option String
  amount : Option Int
  asset : Option String
deriving DecidableEq, Repr

/-- The click entry point of `transfer.py`: if any required flag is
missing, click exits with a usage error (status 2) without invoking the
handler; otherwise the handler runs with `--asset` defaulted to `''`. -/
def transferMain (w : TransferWorld) (f : TransferFlags) : RunResult :=
  match f.sourcekey, f.destinationaddress, f.amount with
  | some sk, some dst, some amt => transfer w sk dst amt (f.asset.getD "")
  | _, _, _ => ⟨[], [], none, .usageError⟩

/-- An all-successful world for `transfer.py`. -/
def mkTransferWorld (kp : Keypair) (acct : Account) (fee : Nat)
    (submit : CallResult HorizonResponse) : TransferWorld :=
  ⟨.ok kp, .ok acct, .ok fee, submit⟩

/-! ## activate-account.py -/

/-- The external calls `activate-account.py` can make:
`Keypair.from_secret`, `server.load_account`, `server.submit_transaction`
(it does not fetch the base fee; `base_fee=100` is hard-coded). -/
structure ActivateWorld where
  fromSecret : CallResult Keypair
  loadAcct : CallResult Account
  submit : CallResult HorizonResponse
deriving Repr

/-- Handler of `activate-account.py` (lines 10-27): derive the keypair,
load the source account, build a transaction with hard-coded
`base_fee=100` holding one create-account operation with hard-coded
`starting_balance="12.25"`, sign it, submit it and print the hash and
response, catching only `BadRequestError`. -/
def activate_account (w : ActivateWorld)
    (sourcekey destinationaddress : String) : RunResult :=
  match w.fromSecret with
  | .raise e => ⟨[], [], none, .raised e⟩
  | .ok source =>
    match w.loadAcct with
    | .raise e => ⟨[.loadAccount source.publicKey], [], none, .raised e⟩
    | .ok _source_account =>
      let transaction : Transaction :=
        ⟨TESTNET_NETWORK_PASSPHRASE, 100,
          [.createAccount destinationaddress "12.25"],
          none, [source.publicKey]⟩
      let calls := [NetCall.loadAccount source.publicKey, NetCall.submitTx transaction]
      match w.submit with
      | .ok response =>
          ⟨calls, [.txHash response.hash, .responseBody response.body],
           some transaction, .returned .pyNone⟩
      | .raise (.badRequest m) =>
          ⟨calls, [.errMsg m], some transaction, .returned .pyNone⟩
      | .raise e =>
          ⟨calls, [], some transaction, .raised e⟩

/-- The flag set of `activate-account.py`: `--sourcekey` and
`--destinationaddress`, both required. -/
structure ActivateFlags where
  sourcekey : Option String
  destinationaddress : Option String
deriving DecidableEq, Repr

/-- The click entry point of `activate-account.py`. -/
def activateMain (w : ActivateWorld) (f : ActivateFlags) : RunResult :=
  match f.sourcekey, f.destinationaddress with
  | some sk, some dst => activate_account w sk dst
  | _, _ => ⟨[], [], none, .usageError⟩

/-- An all-successful world for `activate-account.py`. -/
def mkActivateWorld (kp : Keypair) (acct : Account)
    (submit : CallResult HorizonResponse) : ActivateWorld :=
  ⟨.ok kp, .ok acct, submit⟩

/-! ## create-trustline.py -/

/-- Handler of `create-trustline.py` (lines 12-40): same world shape as
`transfer.py` (keypair, account load, base-fee fetch, submission).  Builds
one change-trust operation from `--assetcode`, `--issueraddress` and the
optional `--limit`, with a 30-second timeout, prints the XDR, submits and
prints hash and response, catching only `BadRequestError`. -/
def create_trustline (w : TransferWorld)
    (sourcekey issueraddress assetcode : String) (limit : Option String) :
    RunResult :=
  match w.fromSecret with
  | .raise e => ⟨[], [], none, .raised e⟩
  | .ok source_keypair =>
    let source_public_key := source_keypair.publicKey
    match w.loadAcct with
    | .raise e => ⟨[.loadAccount source_public_key], [], none, .raised e⟩
    | .ok _source_account =>
      match w.baseFee with
      | .raise e =>
          ⟨[.loadAccount source_public_key, .fetchBaseFee], [], none, .raised e⟩
      | .ok base_fee =>
        let transaction : Transaction :=
          ⟨TESTNET_NETWORK_PASSPHRASE, base_fee,
            [.changeTrust assetcode issueraddress limit],
            some 30, [source_public_key]⟩
        let calls := [NetCall.loadAccount source_public_key, NetCall.fetchBaseFee,
                      NetCall.submitTx transaction]
        match w.submit with
        | .ok response =>
            ⟨calls,
             [.xdrOf transaction, .txHash response.hash, .responseBody response.body],
             some transaction, .returned .pyNone⟩
        | .raise (.badRequest m) =>
            ⟨calls, [.xdrOf transaction, .errMsg m], some transaction,
             .returned .pyNone⟩
        | .raise e =>
            ⟨calls, [.xdrOf transaction], some transaction, .raised e⟩

/-- The flag set of `create-trustline.py`: `--sourcekey`,
`--issueraddress` and `--assetcode` required, `--limit` optional. -/
structure TrustFlags where
  sourcekey : Option String
  issueraddress : Option String
  assetcode : Option String
  limit : Option String
deriving DecidableEq, Repr

/-- The click entry point of `create-trustline.py`. -/
def trustlineMain (w : TransferWorld) (f : TrustFlags) : RunResult :=
  match f.sourcekey, f.issueraddress, f.assetcode with
  | some sk, some issuer, some code => create_trustline w sk issuer code f.limit
  | _, _, _ => ⟨[], [], none, .usageError⟩

/-! ## fund-account.py -/

/-- The friendbot HTTP exchange of `fund-account.py`: the final response
status and the printable representation of `res.json()`. -/
structure FundWorld where
  status : Nat
  jsonBody : String
deriving DecidableEq, Repr

/-- `requests.Response.raise_for_status` raises `HTTPError` exactly for a
4xx or 5xx final status. -/
def raise_for_status (status : Nat) : Bool :=
  decide (400 ≤ status ∧ status < 600)

/-- Handler of `fund-account.py` (lines 9-16): GET the friendbot URL for
the address, call `raise_for_status`; on `HTTPError` print `res.json()`
and `sys.exit(1)`, otherwise print the funded message (and exit 0). -/
def fundThroughFriendbot (w : FundWorld) (address : String) : RunResult :=
  let calls := [NetCall.friendbotGet address]
  if raise_for_status w.status then
    ⟨calls, [.jsonOf w.jsonBody], none, .exited 1⟩
  else
    ⟨calls, [.fundedMsg address], none, .returned .pyNone⟩

/-- The click entry point of `fund-account.py`: `--address` required. -/
def fundMain (w : FundWorld) (address : Option String) : RunResult :=
  match address with
  | some a => fundThroughFriendbot w a
  | none => ⟨[], [], none, .usageError⟩

/-! ## check-account.py -/

/-- The fields `check-account.py` reads off the `Address` object after
`address.get()`. -/
structure AddressData where
  balances : String
  sequence : Nat
  flagsRepr : String
  signersRepr : String
  dataRepr : String
deriving DecidableEq, Repr

/-- Handler of `check-account.py` (lines 8-16): one `address.get()`
network call, then five prints of the fetched fields. -/
def check_account (w : CallResult AddressData) (address : String) : RunResult :=
  match w with
  | .raise e => ⟨[.addressGet address], [], none, .raised e⟩
  | .ok d =>
      ⟨[.addressGet address],
       [.balancesLine d.balances, .sequenceLine d.sequence,
        .flagsLine d.flagsRepr, .signersLine d.signersRepr,
        .dataLine d.dataRepr],
       none, .returned .pyNone⟩

/-- The click entry point of `check-account.py`: `--address` required. -/
def checkMain (w : CallResult AddressData) (address : Option String) : RunResult :=
  match address with
  | some a => check_account w a
  | none => ⟨[], [], none, .usageError⟩

/-! ## Concrete fixtures used by counterexamples and witnesses -/

/-- A concrete keypair fixture. -/
def kpX : Keypair := ⟨"SKEY", "GPUB"⟩

/-- A concrete account fixture. -/
def acctX : Account := ⟨"GPUB", 7⟩

/-- A concrete Horizon response fixture. -/
def respX : HorizonResponse := ⟨"abc123", "responsebody"⟩

/-- A transfer-script world in which every call succeeds. -/
def okW : TransferWorld := mkTransferWorld kpX acctX 100 (.ok respX)

/-! ## Claims -/

/-- Claim C1, counterexample: the asset string `":"` splits into two EMPTY
parts, so by the claim it must be rejected with an error and no payment
transaction built or submitted; the code checks only that the split has
exactly two parts, accepts it, builds a payment with empty code and empty
issuer, and submits it. -/
theorem C1_counterexample :
    splitColon ":" = ["", ""] ∧
    (transfer okW "SKEY" "GDEST" 10 ":").builtTx =
      some ⟨TESTNET_NETWORK_PASSPHRASE, 100,
        [.payment "GDEST" "10" "" (some "")], some 30, ["GPUB"]⟩ ∧
    NetCall.submitTx
        ⟨TESTNET_NETWORK_PASSPHRASE, 100,
          [.payment "GDEST" "10" "" (some "")], some 30, ["GPUB"]⟩
      ∈ (transfer okW "SKEY" "GDEST" 10 ":").calls := by
  refine ⟨by decide, by decide, by decide⟩

/-- Claim C1, amended: a non-empty `--asset` is accepted exactly when
splitting it on `:` yields exactly two parts, EMPTY PARTS INCLUDED; with
two parts a payment transaction with that code and issuer is built, and
for any other number of parts the handler returns
`Exception('Wrong asset format')` as a value (no error is raised) and
never builds or submits a payment transaction. -/
theorem C1_asset_validation (kp : Keypair) (acct : Account) (fee : Nat)
    (resp : HorizonResponse) (sk dst : String) (amt : Int) (asset : String)
    (hne : asset ≠ "") :
    (∀ a i, splitColon asset = [a, i] →
      (transfer (mkTransferWorld kp acct fee (.ok resp)) sk dst amt asset).builtTx =
        some ⟨TESTNET_NETWORK_PASSPHRASE, fee,
          [.payment dst (toString amt) a (some i)], some 30, [kp.publicKey]⟩) ∧
    ((splitColon asset).length ≠ 2 →
      (transfer (mkTransferWorld kp acct fee (.ok resp)) sk dst amt asset).builtTx = none ∧
      (transfer (mkTransferWorld kp acct fee (.ok resp)) sk dst amt asset).outcome =
        .returned (.excValue "Wrong asset format") ∧
      ∀ t, NetCall.submitTx t ∉
        (transfer (mkTransferWorld kp acct fee (.ok resp)) sk dst amt asset).calls) := by
  constructor
  · intro a i h
    simp [transfer, mkTransferWorld, hne, h]
  · intro hlen
    rcases h : splitColon asset with _ | ⟨a, _ | ⟨i, _ | ⟨c, rest⟩⟩⟩
    · simp [transfer, mkTransferWorld, hne, h]
    · simp [transfer, mkTransferWorld, hne, h]
    · exact absurd (by simp [h]) hlen
    · simp [transfer, mkTransferWorld, hne, h]

/-- Claim C1, witness: at asset `":"` (two empty parts) the amended
theorem yields a built payment with empty code and empty issuer. -/
theorem C1_asset_validation_witness :
    (transfer (mkTransferWorld kpX acctX 100 (.ok respX)) "SKEY" "GDEST" 10 ":").builtTx =
      some ⟨TESTNET_NETWORK_PASSPHRASE, 100,
        [.payment "GDEST" "10" "" (some "")], some 30, ["GPUB"]⟩ :=
  (C1_asset_validation kpX acctX 100 respX "SKEY" "GDEST" 10 ":" (by decide)).1
    "" "" (by decide)

/-- Claim C2, counterexample: on a malformed asset (`"a:b:c"` splits into
three parts) the rejection does NOT precede every network call: the
account lookup and base-fee fetch have already happened when the asset is
parsed. -/
theorem C2_counterexample :
    (splitColon "a:b:c").length = 3 ∧
    NetCall.loadAccount "GPUB" ∈ (transfer okW "SKEY" "GDEST" 10 "a:b:c").calls ∧
    NetCall.fetchBaseFee ∈ (transfer okW "SKEY" "GDEST" 10 "a:b:c").calls := by
  refine ⟨by decide, by decide, by decide⟩

/-- Claim C2, amended: with a malformed `--asset` (splitting on `:` into a
number of parts other than two) the run performs the account lookup and
the base-fee fetch first, and the rejection happens only after them; no
transaction submission ever occurs in such a run. -/
theorem C2_reject_after_lookup (kp : Keypair) (acct : Account) (fee : Nat)
    (resp : HorizonResponse) (sk dst : String) (amt : Int) (asset : String)
    (hne : asset ≠ "") (hlen : (splitColon asset).length ≠ 2) :
    (transfer (mkTransferWorld kp acct fee (.ok resp)) sk dst amt asset).calls =
      [NetCall.loadAccount kp.publicKey, NetCall.fetchBaseFee] ∧
    ∀ t, NetCall.submitTx t ∉
      (transfer (mkTransferWorld kp acct fee (.ok resp)) sk dst amt asset).calls := by
  rcases h : splitColon asset with _ | ⟨a, _ | ⟨i, _ | ⟨c, rest⟩⟩⟩
  · exact ⟨by simp [transfer, mkTransferWorld, hne, h], by simp [transfer, mkTransferWorld, hne, h]⟩
  · exact ⟨by simp [transfer, mkTransferWorld, hne, h], by simp [transfer, mkTransferWorld, hne, h]⟩
  · exact absurd (by simp [h]) hlen
  · exact ⟨by simp [transfer, mkTransferWorld, hne, h], by simp [transfer, mkTransferWorld, hne, h]⟩

/-- Claim C2, witness: concrete malformed asset `"a:b:c"`. -/
theorem C2_reject_after_lookup_witness :
    (transfer (mkTransferWorld kpX acctX 100 (.ok respX)) "SKEY" "GDEST" 10 "a:b:c").calls =
      [NetCall.loadAccount kpX.publicKey, NetCall.fetchBaseFee] :=
  (C2_reject_after_lookup kpX acctX 100 respX "SKEY" "GDEST" 10 "a:b:c"
    (by decide) (by decide)).1

/-- Claim C3, counterexample: a successful run of the transfer script
performs three outbound network calls (account lookup, base-fee fetch,
transaction submission), not exactly one. -/
theorem C3_counterexample :
    (transfer okW "SKEY" "GDEST" 10 "").calls.length = 3 ∧
    (transfer okW "SKEY" "GDEST" 10 "").calls.length ≠ 1 := by
  refine ⟨by decide, by decide⟩

/-- Claim C3, amended: per successful run, `fund-account.py` and
`check-account.py` perform exactly one network call, `activate-account.py`
performs two (account lookup, then submission), and `transfer.py` and
`create-trustline.py` perform three (account lookup, base-fee fetch, then
submission). -/
theorem C3_call_counts (kp : Keypair) (acct : Account) (fee : Nat)
    (resp : HorizonResponse) (status : Nat) (body : String) (d : AddressData)
    (sk dst addr ia code : String) (amt : Int) (lim : Option String) :
    (fundThroughFriendbot ⟨status, body⟩ addr).calls.length = 1 ∧
    (check_account (.ok d) addr).calls.length = 1 ∧
    (activate_account (mkActivateWorld kp acct (.ok resp)) sk dst).calls.length = 2 ∧
    (transfer (mkTransferWorld kp acct fee (.ok resp)) sk dst amt "").calls.length = 3 ∧
    (create_trustline (mkTransferWorld kp acct fee (.ok resp)) sk ia code lim).calls.length = 3 := by
  refine ⟨?_, ?_, ?_, ?_, ?_⟩
  · unfold fundThroughFriendbot
    split <;> rfl
  · rfl
  · rfl
  · rfl
  · rfl

/-- Claim C4, confirmed: with `--asset` omitted (so click supplies the
default `''`) or explicitly the empty string, the payment is built with
asset code `XLM` and no issuer. -/
theorem C4_native_asset (kp : Keypair) (acct : Account) (fee : Nat)
    (resp : HorizonResponse) (sk dst : String) (amt : Int) :
    (transferMain (mkTransferWorld kp acct fee (.ok resp))
        ⟨some sk, some dst, some amt, none⟩).builtTx =
      some ⟨TESTNET_NETWORK_PASSPHRASE, fee,
        [.payment dst (toString amt) "XLM" none], some 30, [kp.publicKey]⟩ ∧
    (transferMain (mkTransferWorld kp acct fee (.ok resp))
        ⟨some sk, some dst, some amt, some ""⟩).builtTx =
      some ⟨TESTNET_NETWORK_PASSPHRASE, fee,
        [.payment dst (toString amt) "XLM" none], some 30, [kp.publicKey]⟩ := by
  exact ⟨rfl, rfl⟩

/-- Claim C5, counterexample: a final friendbot response status of 304 is
not a 2xx success, yet `raise_for_status` raises only for 4xx/5xx, so the
script prints the funded-account message and exits 0 instead of printing
the body and exiting 1. -/
theorem C5_counterexample :
    ¬ (200 ≤ 304 ∧ 304 < 300) ∧
    (fundThroughFriendbot ⟨304, "BODY"⟩ "GADDR").output = [.fundedMsg "GADDR"] ∧
    exitCode (fundThroughFriendbot ⟨304, "BODY"⟩ "GADDR").outcome = 0 := by
  refine ⟨by decide, by decide, by decide⟩

/-- Claim C5, amended: the funding script prints the response body and
exits 1 exactly when the final HTTP status is 4xx or 5xx (the statuses for
which `raise_for_status` raises); for every other final status, including
3xx, it prints the funded-account message and exits 0. -/
theorem C5_fund_exit (status : Nat) (body addr : String) :
    (fundThroughFriendbot ⟨status, body⟩ addr).output =
      (if 400 ≤ status ∧ status < 600 then [.jsonOf body] else [.fundedMsg addr]) ∧
    exitCode (fundThroughFriendbot ⟨status, body⟩ addr).outcome =
      (if 400 ≤ status ∧ status < 600 then 1 else 0) := by
  unfold fundThroughFriendbot raise_for_status
  by_cases h : 400 ≤ status ∧ status < 600
  · simp [h, exitCode]
  · simp [h, exitCode]

/-- Claim C6, confirmed: in each transaction-submitting script
(`transfer.py`, `activate-account.py`, `create-trustline.py`), a
`BadRequestError` raised by the submission is caught and its message
printed (the handler then returns normally, exit 0); any other exception —
whether raised by the submission or earlier, e.g. by
`Keypair.from_secret` on a malformed secret — propagates uncaught and the
process exits with status 1. -/
theorem C6_error_handling (kp : Keypair) (acct : Account) (fee : Nat)
    (resp : HorizonResponse) (sk dst ia code : String) (amt : Int)
    (lim : Option String) (m n : String) :
    ((transfer (mkTransferWorld kp acct fee (.raise (.badRequest m))) sk dst amt "").outcome =
        .returned .pyNone ∧
      OutputLine.errMsg m ∈
        (transfer (mkTransferWorld kp acct fee (.raise (.badRequest m))) sk dst amt "").output) ∧
    (transfer (mkTransferWorld kp acct fee (.raise (.other n))) sk dst amt "").outcome =
      .raised (.other n) ∧
    (transfer ⟨.raise (.other n), .ok acct, .ok fee, .ok resp⟩ sk dst amt "").outcome =
      .raised (.other n) ∧
    ((activate_account (mkActivateWorld kp acct (.raise (.badRequest m))) sk dst).outcome =
        .returned .pyNone ∧
      OutputLine.errMsg m ∈
        (activate_account (mkActivateWorld kp acct (.raise (.badRequest m))) sk dst).output) ∧
    (activate_account (mkActivateWorld kp acct (.raise (.other n))) sk dst).outcome =
      .raised (.other n) ∧
    (activate_account ⟨.raise (.other n), .ok acct, .ok resp⟩ sk dst).outcome =
      .raised (.other n) ∧
    ((create_trustline (mkTransferWorld kp acct fee (.raise (.badRequest m))) sk ia code lim).outcome =
        .returned .pyNone ∧
      OutputLine.errMsg m ∈
        (create_trustline (mkTransferWorld kp acct fee (.raise (.badRequest m))) sk ia code lim).output) ∧
    (create_trustline (mkTransferWorld kp acct fee (.raise (.other n))) sk ia code lim).outcome =
      .raised (.other n) ∧
    (create_trustline ⟨.raise (.other n), .ok acct, .ok fee, .ok resp⟩ sk ia code lim).outcome =
      .raised (.other n) ∧
    exitCode (.returned .pyNone) = 0 ∧
    exitCode (.raised (.other n)) = 1 := by
  refine ⟨⟨rfl, ?_⟩, rfl, rfl, ⟨rfl, ?_⟩, rfl, rfl, ⟨rfl, ?_⟩, rfl, rfl, rfl, rfl⟩
  · simp [transfer, mkTransferWorld]
  · simp [activate_account, mkActivateWorld]
  · simp [create_trustline, mkTransferWorld]

/-- Claim C7, confirmed: for every script, every invocation with a
required flag missing ends in click's usage error — exit status 2, which
is non-zero — with no network call made (and no handler code run at
all). -/
theorem C7_required_flags (wT : TransferWorld) (wA : ActivateWorld)
    (wF : FundWorld) (wC : CallResult AddressData) (sk dst : Option String)
    (amt : Option Int) (asset lim oth : Option String) :
    transferMain wT ⟨none, dst, amt, asset⟩ = ⟨[], [], none, .usageError⟩ ∧
    transferMain wT ⟨sk, none, amt, asset⟩ = ⟨[], [], none, .usageError⟩ ∧
    transferMain wT ⟨sk, dst, none, asset⟩ = ⟨[], [], none, .usageError⟩ ∧
    activateMain wA ⟨none, dst⟩ = ⟨[], [], none, .usageError⟩ ∧
    activateMain wA ⟨sk, none⟩ = ⟨[], [], none, .usageError⟩ ∧
    fundMain wF none = ⟨[], [], none, .usageError⟩ ∧
    checkMain wC none = ⟨[], [], none, .usageError⟩ ∧
    trustlineMain wT ⟨none, dst, oth, lim⟩ = ⟨[], [], none, .usageError⟩ ∧
    trustlineMain wT ⟨sk, none, oth, lim⟩ = ⟨[], [], none, .usageError⟩ ∧
    trustlineMain wT ⟨sk, dst, none, lim⟩ = ⟨[], [], none, .usageError⟩ ∧
    exitCode Outcome.usageError = 2 := by
  refine ⟨rfl, ?_, ?_, rfl, ?_, rfl, rfl, rfl, ?_, ?_, rfl⟩
  · cases sk <;> rfl
  · cases sk <;> cases dst <;> rfl
  · cases sk <;> rfl
  · cases sk <;> rfl
  · cases sk <;> cases dst <;> rfl

/-- Claim C9, confirmed: on a malformed `--asset` (split on `:` into a
number of parts other than two) the handler returns the exception object
`Exception('Wrong asset format')` as a value — so the process exits 0 —
prints nothing, builds no transaction, and never submits one; only the
account lookup and base-fee fetch have run. -/
theorem C9_wrong_format_exit_zero (kp : Keypair) (acct : Account)
    (fee : Nat) (resp : HorizonResponse) (sk dst : String) (amt : Int)
    (asset : String) (hne : asset ≠ "")
    (hlen : (splitColon asset).length ≠ 2) :
    transfer (mkTransferWorld kp acct fee (.ok resp)) sk dst amt asset =
      ⟨[.loadAccount kp.publicKey, .fetchBaseFee], [], none,
        .returned (.excValue "Wrong asset format")⟩ ∧
    exitCode (transfer (mkTransferWorld kp acct fee (.ok resp)) sk dst amt asset).outcome = 0 := by
  rcases h : splitColon asset with _ | ⟨a, _ | ⟨i, _ | ⟨c, rest⟩⟩⟩
  · exact ⟨by simp [transfer, mkTransferWorld, hne, h], by simp [transfer, mkTransferWorld, hne, h, exitCode]⟩
  · exact ⟨by simp [transfer, mkTransferWorld, hne, h], by simp [transfer, mkTransferWorld, hne, h, exitCode]⟩
  · exact absurd (by simp [h]) hlen
  · exact ⟨by simp [transfer, mkTransferWorld, hne, h], by simp [transfer, mkTransferWorld, hne, h, exitCode]⟩

/-- Claim C9, witness: the concrete malformed asset `"a:b:c"` makes the
handler return the exception value with exit status 0. -/
theorem C9_wrong_format_exit_zero_witness :
    transfer (mkTransferWorld kpX acctX 100 (.ok respX)) "SKEY" "GDEST" 10 "a:b:c" =
      ⟨[.loadAccount kpX.publicKey, .fetchBaseFee], [], none,
        .returned (.excValue "Wrong asset format")⟩ :=
  (C9_wrong_format_exit_zero kpX acctX 100 respX "SKEY" "GDEST" 10 "a:b:c"
    (by decide) (by decide)).1

/-- Claim C10, confirmed: for every command-line input, the
activate-account script builds and submits a transaction with the
hard-coded base fee 100 containing a single create-account operation with
the hard-coded starting balance of 12.25; no flag reaches either value. -/
theorem C10_hardcoded_fee_balance (kp : Keypair) (acct : Account)
    (resp : HorizonResponse) (sk dst : String) :
    (activate_account (mkActivateWorld kp acct (.ok resp)) sk dst).builtTx =
      some ⟨TESTNET_NETWORK_PASSPHRASE, 100, [.createAccount dst "12.25"],
        none, [kp.publicKey]⟩ ∧
    NetCall.submitTx
        ⟨TESTNET_NETWORK_PASSPHRASE, 100, [.createAccount dst "12.25"],
          none, [kp.publicKey]⟩
      ∈ (activate_account (mkActivateWorld kp acct (.ok resp)) sk dst).calls := by
  exact ⟨rfl, by simp [activate_account, mkActivateWorld]⟩

end Stellar
